import Mathlib

/-!
Verification of the query-generation-and-execution core of `agentic_app.py`.

The program collects a question and a model credential, generates one SQL and
one Cypher query text by two model calls, sanitizes the SQL text, executes both
texts against PostgreSQL and Neo4j, and renders the results.  The embedding
below models:

* the sanitizer of line 195, `sql_query.replace("<s> ", "").replace("`", "")`,
  as literal left-to-right non-overlapping substring removal on `List Char`;
* the two executor blocks (lines 203-217 and 220-228) as functions of an
  oracle that fixes the outcome of each driver step (connect / execute / fetch
  for PostgreSQL; driver / session / run for Neo4j), returning the computed
  result value together with the chronological list of resource
  acquisition/release events that the code performs on that path;
* the whole button handler (lines 148-259) as `process`, including the
  fail-fast configuration checks, the single outer try/except that wraps both
  generation calls and both executions, and the result-display decisions.
-/

/-! ## The sanitizer (line 195) -/

/-- Backtick character, U+0060 (the code-fence marker removed second). -/
def backtick : Char := Char.ofNat 96

/-- The sentinel token sequence removed first by the sanitizer:
the four characters of the Python literal between quotes in
`sql_query.replace("<s> ", "")`, that is `<`, `s`, `>`, space. -/
def sentinel : List Char := ['<', 's', '>', ' ']

/-- The bare sentinel `<s>` without its trailing space. -/
def bareSentinel : List Char := ['<', 's', '>']

/-- `text.replace("<s> ", "")`: scan left to right, delete each
non-overlapping occurrence of the four-character sentinel, keep every
other character.  This is exactly Python's `str.replace` with an empty
replacement. -/
def removeSentinel : List Char → List Char
  | '<' :: 's' :: '>' :: ' ' :: rest => removeSentinel rest
  | c :: cs => c :: removeSentinel cs
  | [] => []

/-- `text.replace("`", "")`: delete every backtick character. -/
def removeBackticks : List Char → List Char
  | [] => []
  | c :: cs => if c = backtick then removeBackticks cs else c :: removeBackticks cs

/-- Line 195: first remove the sentinel token occurrences, then remove the
backticks, in that order. -/
def sanitize (l : List Char) : List Char :=
  removeBackticks (removeSentinel l)

/-- Substring test: does `l` contain `pat` as a contiguous substring? -/
def containsSub (pat : List Char) : List Char → Bool
  | [] => pat.isEmpty
  | c :: cs => pat.isPrefixOf (c :: cs) || containsSub pat cs

/-- Character membership test. -/
def hasChar (c : Char) : List Char → Bool
  | [] => false
  | x :: xs => x == c || hasChar c xs

/-! ## The relational executor (lines 203-217)

```
try:
    conn = psycopg2.connect(...)
    cursor = conn.cursor()
    cursor.execute(sql_query)
    sql_results = cursor.fetchall()
    cursor.close()
    conn.close()
except Exception as e:
    sql_results = f"Error executing SQL query: {str(e)}"
```

Each driver step either succeeds or raises; the oracle fixes which.  The
events record, in order, every resource acquisition and release the code
performs on the resulting control path.  `conn.cursor()` on a freshly
opened connection is not a failure point and is recorded as `cursorOpen`;
the two `close()` calls do not raise. -/

/-- One SQL result tuple. -/
abbrev SqlRow := List String

/-- One Neo4j `record.data()` value: field name to value. -/
abbrev NeoRecord := List (String × String)

/-- The value bound to `sql_results`: either the fetched rows or the error
string built in the `except` branch.  It is never `None`. -/
inductive SqlOutcome
  | rows (rs : List SqlRow)
  | err (msg : String)
deriving DecidableEq

inductive PgEvent
  | connOpen
  | cursorOpen
  | cursorClose
  | connClose
deriving DecidableEq

/-- Outcomes of the three fallible PostgreSQL driver steps. -/
structure PgOracle where
  connectResult : Except String Unit
  executeResult : Except String Unit
  fetchResult : Except String (List SqlRow)

structure PgRun where
  result : SqlOutcome
  events : List PgEvent
deriving DecidableEq

/-- The SQL execution block.  On any raise the `except` arm turns the
exception text into the `sql_results` string; no close is attempted on an
exceptional path because the `close()` calls sit inside the `try` body with
no `finally`. -/
def runPg (o : PgOracle) : PgRun :=
  match o.connectResult with
  | .error e => ⟨.err ("Error executing SQL query: " ++ e), []⟩
  | .ok _ =>
    match o.executeResult with
    | .error e => ⟨.err ("Error executing SQL query: " ++ e), [.connOpen, .cursorOpen]⟩
    | .ok _ =>
      match o.fetchResult with
      | .error e => ⟨.err ("Error executing SQL query: " ++ e), [.connOpen, .cursorOpen]⟩
      | .ok rs => ⟨.rows rs, [.connOpen, .cursorOpen, .cursorClose, .connClose]⟩

/-- The message of the first PostgreSQL step that raises, if any. -/
def PgOracle.firstErr (o : PgOracle) : Option String :=
  match o.connectResult with
  | .error e => some e
  | .ok _ =>
    match o.executeResult with
    | .error e => some e
    | .ok _ =>
      match o.fetchResult with
      | .error e => some e
      | .ok _ => none

/-! ## The graph executor (lines 220-228)

```
try:
    driver = GraphDatabase.driver(neo4j_uri, auth=(...))
    with driver.session() as session:
        result = session.run(cypher_query)
        cypher_results = [record.data() for record in result]
    driver.close()
except Exception as e:
    cypher_results = None
    st.error(f"Error executing Cypher query: {str(e)}")
```

The `with` block guarantees the session close even when `session.run`
raises; `driver.close()` is a plain statement after the `with`, skipped on
any raise inside it. -/

inductive NeoEvent
  | driverOpen
  | sessionOpen
  | sessionClose
  | driverClose
deriving DecidableEq

/-- Outcomes of the three fallible Neo4j driver steps. -/
structure NeoOracle where
  driverResult : Except String Unit
  sessionResult : Except String Unit
  runResult : Except String (List NeoRecord)

structure NeoRun where
  result : Option (List NeoRecord)
  events : List NeoEvent
  errors : List String
deriving DecidableEq

/-- The Cypher execution block.  `result = none` is the `cypher_results =
None` state of the `except` arm; `errors` collects the `st.error` calls it
makes. -/
def runNeo (o : NeoOracle) : NeoRun :=
  match o.driverResult with
  | .error e => ⟨none, [], ["Error executing Cypher query: " ++ e]⟩
  | .ok _ =>
    match o.sessionResult with
    | .error e => ⟨none, [.driverOpen], ["Error executing Cypher query: " ++ e]⟩
    | .ok _ =>
      match o.runResult with
      | .error e =>
        ⟨none, [.driverOpen, .sessionOpen, .sessionClose],
          ["Error executing Cypher query: " ++ e]⟩
      | .ok recs =>
        ⟨some recs, [.driverOpen, .sessionOpen, .sessionClose, .driverClose], []⟩

/-- The message of the first Neo4j step that raises, if any. -/
def NeoOracle.firstErr (o : NeoOracle) : Option String :=
  match o.driverResult with
  | .error e => some e
  | .ok _ =>
    match o.sessionResult with
    | .error e => some e
    | .ok _ =>
      match o.runResult with
      | .error e => some e
      | .ok _ => none

/-- Convenience predicate: did all steps of a `PgOracle` succeed? -/
def PgOracle.allOk (o : PgOracle) : Bool :=
  match o.firstErr with
  | none => true
  | some _ => false

/-- Convenience predicate: did all steps of a `NeoOracle` succeed? -/
def NeoOracle.allOk (o : NeoOracle) : Bool :=
  match o.firstErr with
  | none => true
  | some _ => false

/-! ## The button handler (lines 148-259) -/

/-- The request-scoped inputs checked by the fail-fast guards.  The schema
texts and connection parameters are absorbed into the oracles since the
model only tracks the outcome of each external call. -/
structure Request where
  question : List Char
  groqApiKey : List Char

/-- Outcomes of the external calls a single submission can make: the two
model invocations and the two database executions, plus availability of the
`ChatGroq` import (lines 11-15 and 157-159). -/
structure Oracles where
  chatGroqAvailable : Bool
  sqlGen : Except String (List Char)
  cypherGen : Except String (List Char)
  pg : PgOracle
  neo : NeoOracle

/-- The Cypher result column (lines 241-245): `st.json` when
`cypher_results is not None`, the warning banner otherwise. -/
inductive CypherShown
  | json (recs : List NeoRecord)
  | warn
deriving DecidableEq

/-- The SQL result column (lines 252-256): `sql_results` is never `None`
(it is a row list or an error string), so the code always reaches
`st.dataframe(sql_results)`. -/
inductive SqlShown
  | dataframe (res : SqlOutcome)
deriving DecidableEq

/-- Everything observable about one submission: the error banners, which
model calls were issued, the texts handed to the executors, the per-dialect
outcomes, the resource events, and the rendered result columns.  A `none` /
`[]` / `false` field means the corresponding step never ran. -/
structure ProcessResult where
  configError : Option String := none
  importError : Option String := none
  topError : Option String := none
  sqlGenCalled : Bool := false
  cypherGenCalled : Bool := false
  sqlSent : Option (List Char) := none
  cypherSent : Option (List Char) := none
  sqlOutcome : Option SqlOutcome := none
  cypherOutcome : Option (Option (List NeoRecord)) := none
  cypherErrors : List String := []
  pgEvents : List PgEvent := []
  neoEvents : List NeoEvent := []
  sqlShown : Option SqlShown := none
  cypherShown : Option CypherShown := none
deriving DecidableEq

/-- The body of `if st.button(...)`: the two guards (lines 149-152), then
one `try` covering model construction, both generation calls, the
sanitization, both execution blocks and the display code, with the
catch-all `except` of lines 258-259.  A raise in either generation call
reaches that catch-all; the execution blocks have their own inner
`try/except` arms (modelled inside `runPg` / `runNeo`), so they never
raise outward. -/
def process (req : Request) (o : Oracles) : ProcessResult :=
  if req.question = [] then
    { configError := some "Please enter a question." }
  else if req.groqApiKey = [] then
    { configError := some "GROQ API Key not set. Please add it above." }
  else if o.chatGroqAvailable = false then
    { importError := some "ChatGroq is not available." }
  else
    match o.sqlGen with
    | .error e =>
      { sqlGenCalled := true
        topError := some ("An error occurred: " ++ e) }
    | .ok rawSql =>
      match o.cypherGen with
      | .error e =>
        { sqlGenCalled := true
          cypherGenCalled := true
          topError := some ("An error occurred: " ++ e) }
      | .ok cypherQuery =>
        let sqlQuery := sanitize rawSql
        let ps := runPg o.pg
        let ns := runNeo o.neo
        { sqlGenCalled := true
          cypherGenCalled := true
          sqlSent := some sqlQuery
          cypherSent := some cypherQuery
          sqlOutcome := some ps.result
          cypherOutcome := some ns.result
          cypherErrors := ns.errors
          pgEvents := ps.events
          neoEvents := ns.events
          sqlShown := some (SqlShown.dataframe ps.result)
          cypherShown := some (match ns.result with
            | some recs => CypherShown.json recs
            | none => CypherShown.warn) }

/-! ## Helper lemmas about the sanitizer -/

theorem removeSentinel_cons_ne (c : Char) (cs : List Char) (h : c ≠ '<') :
    removeSentinel (c :: cs) = c :: removeSentinel cs := by
  rw [removeSentinel.eq_def]
  split
  · simp_all
  · rename_i heq
    injection heq with h1 h2
    rw [← h1, ← h2]
  · simp_all

theorem removeSentinel_cons_lt (cs : List Char)
    (h : ∀ rest, cs ≠ 's' :: '>' :: ' ' :: rest) :
    removeSentinel ('<' :: cs) = '<' :: removeSentinel cs := by
  rw [removeSentinel.eq_def]
  split
  · simp_all
  · rename_i heq
    injection heq with h1 h2
    rw [← h1, ← h2]
  · simp_all

/-- `removeSentinel` deletes the sentinel when it stands at the front. -/
theorem removeSentinel_sentinel_append (l : List Char) :
    removeSentinel (sentinel ++ l) = removeSentinel l := by
  simp [sentinel, removeSentinel]

theorem isPrefixOfAppend (p l : List Char) :
    p.isPrefixOf l = true ↔ ∃ t, l = p ++ t := by
  induction p generalizing l with
  | nil => simp [List.isPrefixOf]
  | cons a as ih =>
    cases l with
    | nil => simp [List.isPrefixOf]
    | cons b bs =>
      simp only [List.isPrefixOf, Bool.and_eq_true, beq_iff_eq, ih, List.cons_append,
        List.cons.injEq]
      constructor
      · rintro ⟨rfl, t, rfl⟩; exact ⟨t, rfl, rfl⟩
      · rintro ⟨t, rfl, rfl⟩; exact ⟨rfl, t, rfl⟩

theorem containsSubAppend (pat l : List Char) :
    containsSub pat l = true ↔ ∃ a b, l = a ++ pat ++ b := by
  induction l with
  | nil =>
    simp only [containsSub, List.isEmpty_iff]
    constructor
    · rintro rfl; exact ⟨[], [], rfl⟩
    · rintro ⟨a, b, hab⟩
      rcases List.append_eq_nil.mp hab.symm with ⟨h1, h2⟩
      exact (List.append_eq_nil.mp h1).2
  | cons c cs ih =>
    simp only [containsSub, Bool.or_eq_true, isPrefixOfAppend, ih]
    constructor
    · rintro (⟨t, ht⟩ | ⟨a, b, rfl⟩)
      · exact ⟨[], t, by simp [ht]⟩
      · exact ⟨c :: a, b, rfl⟩
    · rintro ⟨a, b, hab⟩
      cases a with
      | nil => exact Or.inl ⟨b, by simpa using hab⟩
      | cons x xs =>
        right
        simp only [List.cons_append, List.cons.injEq] at hab
        exact ⟨xs, b, hab.2⟩

theorem containsSub_cons (pat : List Char) (c : Char) (l : List Char)
    (h : containsSub pat l = true) : containsSub pat (c :: l) = true := by
  simp [containsSub, h]

/-- A text with no occurrence of the sentinel passes `removeSentinel`
unchanged. -/
theorem removeSentinel_of_not_contains (l : List Char)
    (h : containsSub sentinel l = false) : removeSentinel l = l := by
  induction l using removeSentinel.induct with
  | case1 rest ih =>
    exfalso
    have hmem : containsSub sentinel ('<' :: 's' :: '>' :: ' ' :: rest) = true := by
      rw [containsSubAppend]
      exact ⟨[], rest, by simp [sentinel]⟩
    rw [h] at hmem
    exact Bool.false_ne_true hmem
  | case2 c cs hne ih =>
    have htail : containsSub sentinel cs = false := by
      simp only [containsSub, Bool.or_eq_false_iff] at h
      exact h.2
    have hc : removeSentinel (c :: cs) = c :: removeSentinel cs := by
      rw [removeSentinel.eq_def]
      split
      · rename_i rest heq
        exfalso
        injection heq with e1 e2
        exact hne rest e1 e2
      · rename_i c' cs' heq
        injection heq with e1 e2
        rw [← e1, ← e2]
      · rename_i heq
        simp at heq
    rw [hc, ih htail]
  | case3 => rfl

/-- `removeBackticks` is `filter`-like: it distributes over append. -/
theorem removeBackticks_append (a b : List Char) :
    removeBackticks (a ++ b) = removeBackticks a ++ removeBackticks b := by
  induction a with
  | nil => rfl
  | cons c cs ih =>
    by_cases hc : c = backtick <;> simp [removeBackticks, hc, ih]

/-- No backtick survives `removeBackticks`. -/
theorem hasChar_backtick_removeBackticks (l : List Char) :
    hasChar backtick (removeBackticks l) = false := by
  induction l with
  | nil => rfl
  | cons c cs ih =>
    by_cases hc : c = backtick <;> simp [removeBackticks, hasChar, hc, ih]

/-- A backtick-free text passes `removeBackticks` unchanged. -/
theorem removeBackticks_of_not_hasChar (l : List Char)
    (h : hasChar backtick l = false) : removeBackticks l = l := by
  induction l with
  | nil => rfl
  | cons c cs ih =>
    simp only [hasChar, Bool.or_eq_false_iff, beq_eq_false_iff_ne] at h
    obtain ⟨hc, h2⟩ := h
    simp [removeBackticks, hc, ih h2]

/-- A backtick-free substring occurrence survives `removeBackticks`. -/
theorem containsSub_removeBackticks (pat l : List Char)
    (hpat : removeBackticks pat = pat)
    (h : containsSub pat l = true) : containsSub pat (removeBackticks l) = true := by
  rw [containsSubAppend] at h ⊢
  rcases h with ⟨a, b, rfl⟩
  exact ⟨removeBackticks a, removeBackticks b, by
    rw [removeBackticks_append, removeBackticks_append, hpat]⟩

/-- A bare `<s>` occurrence whose next character is not a space survives
`removeSentinel`: the sentinel removal matches only the exact
four-character sequence, and a match can never overlap such an
occurrence. -/
theorem bareSentinel_survives_aux :
    ∀ (n : Nat) (l u v : List Char), l.length ≤ n →
      l = u ++ '<' :: 's' :: '>' :: v → v.head? ≠ some ' ' →
      containsSub bareSentinel (removeSentinel l) = true := by
  intro n
  induction n with
  | zero =>
    intro l u v hlen hl _
    subst hl
    simp [List.length_append] at hlen
  | succ n ih =>
    intro l u v hlen hl hv
    subst hl
    cases u with
    | nil =>
      simp only [List.nil_append] at hlen ⊢
      have hv' : ∀ rest, 's' :: '>' :: v ≠ 's' :: '>' :: ' ' :: rest := by
        intro rest heq
        simp only [List.cons.injEq, true_and] at heq
        subst heq
        simp at hv
      rw [removeSentinel_cons_lt _ hv',
          removeSentinel_cons_ne 's' _ (by decide),
          removeSentinel_cons_ne '>' _ (by decide)]
      simp [bareSentinel, containsSub, List.isPrefixOf]
    | cons x u' =>
      simp only [List.cons_append] at hlen ⊢
      have hlen' : (u' ++ '<' :: 's' :: '>' :: v).length ≤ n := by
        simp only [List.length_cons] at hlen
        simp only [List.length_append, List.length_cons]
        simp only [List.length_append, List.length_cons] at hlen
        omega
      by_cases hx : x = '<'
      · subst hx
        rcases u' with _ | ⟨y, u''⟩
        · by_cases hm : ∀ rest, ([] ++ '<' :: 's' :: '>' :: v) ≠ 's' :: '>' :: ' ' :: rest
          · simp only [List.nil_append] at hm ⊢
            rw [removeSentinel_cons_lt _ hm]
            exact containsSub_cons _ _ _ (ih _ [] v (by simpa using hlen') rfl hv)
          · push_neg at hm
            rcases hm with ⟨rest, hrest⟩
            simp at hrest
        · simp only [List.cons_append] at hlen' ⊢
          by_cases hm : ∀ rest,
              (y :: (u'' ++ '<' :: 's' :: '>' :: v)) ≠ 's' :: '>' :: ' ' :: rest
          · rw [removeSentinel_cons_lt _ hm]
            refine containsSub_cons _ _ _ (ih _ (y :: u'') v ?_ (by simp) hv)
            simpa using hlen'
          · push_neg at hm
            rcases hm with ⟨rest, hrest⟩
            simp only [List.cons.injEq] at hrest
            obtain ⟨rfl, hrest2⟩ := hrest
            rcases u'' with _ | ⟨z, u3⟩
            · simp at hrest2
            · simp only [List.cons_append, List.cons.injEq] at hrest2
              obtain ⟨rfl, hrest3⟩ := hrest2
              rcases u3 with _ | ⟨w, u4⟩
              · simp at hrest3
              · simp only [List.cons_append, List.cons.injEq] at hrest3
                obtain ⟨rfl, hrest4⟩ := hrest3
                simp only [List.cons_append]
                rw [show removeSentinel ('<' :: 's' :: '>' :: ' ' ::
                      (u4 ++ '<' :: 's' :: '>' :: v))
                    = removeSentinel (u4 ++ '<' :: 's' :: '>' :: v) from by
                  simp [removeSentinel]]
                apply ih _ u4 v _ rfl hv
                simp only [List.length_cons, List.length_append, List.length_cons] at hlen ⊢
                omega
      · rw [removeSentinel_cons_ne x _ hx]
        exact containsSub_cons _ _ _ (ih _ u' v hlen' rfl hv)

/-! ## Concrete fixtures for counterexamples and witnesses -/

/-- A PostgreSQL oracle on which every driver step succeeds. -/
def pgOk : PgOracle := ⟨.ok (), .ok (), .ok [["1"]]⟩

/-- A PostgreSQL oracle whose `cursor.execute` raises. -/
def pgExecFail : PgOracle := ⟨.ok (), .error "syntax error at or near", .ok []⟩

/-- A PostgreSQL oracle whose `psycopg2.connect` raises. -/
def pgConnFail : PgOracle := ⟨.error "connection refused", .ok (), .ok []⟩

/-- A Neo4j oracle on which every driver step succeeds. -/
def neoOk : NeoOracle := ⟨.ok (), .ok (), .ok [[("n", "1")]]⟩

/-- A Neo4j oracle whose `session.run` raises. -/
def neoRunFail : NeoOracle := ⟨.ok (), .ok (), .error "ServiceUnavailable"⟩

/-- A Neo4j oracle that succeeds with zero records. -/
def neoEmptyOk : NeoOracle := ⟨.ok (), .ok (), .ok []⟩

/-- A request that passes both configuration guards. -/
def reqOk : Request := ⟨"list all courses".toList, "gsk".toList⟩

/-- A generated SQL text on which sentinel removal creates a fresh
sentinel occurrence: removing the inner `<s> ` joins the outer `<s` and
`>  ` into `x<s> y`. -/
def rawTricky : List Char := "x<s><s>  y".toList

/-! ## Claim C3 -/

/-- C3: sanitization is applied to the generated SQL text only — the
Cypher text reaches the graph executor unmodified — and equals literal
substring removal in fixed order: first every occurrence of the sentinel
token sequence is deleted, then every backtick, with no other change to
the text. -/
theorem c3_sanitize_sql_only_fixed_order (q k raw cy : List Char)
    (pg : PgOracle) (neo : NeoOracle) (hq : q ≠ []) (hk : k ≠ []) :
    (process ⟨q, k⟩ ⟨true, .ok raw, .ok cy, pg, neo⟩).sqlSent
        = some (removeBackticks (removeSentinel raw)) ∧
    (process ⟨q, k⟩ ⟨true, .ok raw, .ok cy, pg, neo⟩).cypherSent = some cy := by
  simp [process, hq, hk, sanitize]

/-- Witness for C3 at a concrete request. -/
theorem c3_sanitize_sql_only_fixed_order_witness :
    (process ⟨"q".toList, "k".toList⟩
        ⟨true, .ok "SELECT 1".toList, .ok "MATCH (n) RETURN n".toList, pgOk, neoOk⟩).sqlSent
        = some (removeBackticks (removeSentinel "SELECT 1".toList)) ∧
    (process ⟨"q".toList, "k".toList⟩
        ⟨true, .ok "SELECT 1".toList, .ok "MATCH (n) RETURN n".toList, pgOk, neoOk⟩).cypherSent
        = some "MATCH (n) RETURN n".toList :=
  c3_sanitize_sql_only_fixed_order "q".toList "k".toList "SELECT 1".toList
    "MATCH (n) RETURN n".toList pgOk neoOk (by decide) (by decide)

/-! ## Claim C4 -/

/-- C4 counterexample: the claim "the text passed to the SQL executor
never contains the sentinel token after sanitization" is false: sanitizing
`x<s><s>  y` hands `x<s> y` to the executor, which still contains both the
four-character sentinel sequence and the bare `<s>`. -/
theorem c4_counterexample :
    (process reqOk ⟨true, .ok rawTricky, .ok "RETURN 1".toList, pgOk, neoOk⟩).sqlSent
        = some "x<s> y".toList ∧
    containsSub sentinel "x<s> y".toList = true ∧
    containsSub bareSentinel "x<s> y".toList = true := by decide

/-- C4 (amended): the text passed to the SQL executor after sanitization
never contains a backtick character; the sentinel token may survive. -/
theorem c4_no_backtick_after_sanitize (raw : List Char) :
    hasChar backtick (sanitize raw) = false :=
  hasChar_backtick_removeBackticks (removeSentinel raw)

/-! ## Claim C5 -/

/-- C5 counterexample: the sanitizer is not idempotent — a second pass over
the sanitized `x<s><s>  y` removes the sentinel occurrence that the first
pass created. -/
theorem c5_counterexample :
    sanitize (sanitize rawTricky) ≠ sanitize rawTricky := by decide

/-- C5 (amended): sanitizing already-clean text (no occurrence of the
sentinel token sequence and no backtick) is a no-op; full idempotence
fails because sentinel removal can juxtapose the surrounding text into a
fresh sentinel occurrence. -/
theorem c5_sanitize_clean_noop (t : List Char)
    (h1 : containsSub sentinel t = false)
    (h2 : hasChar backtick t = false) : sanitize t = t := by
  unfold sanitize
  rw [removeSentinel_of_not_contains t h1, removeBackticks_of_not_hasChar t h2]

/-- Witness for C5 (amended) at a concrete clean text. -/
theorem c5_sanitize_clean_noop_witness :
    sanitize "SELECT name FROM users".toList = "SELECT name FROM users".toList :=
  c5_sanitize_clean_noop "SELECT name FROM users".toList (by decide) (by decide)

/-! ## Claim C10 -/

/-- C10: the sanitizer's sentinel removal matches only the exact sequence
`<s> ` with the trailing space; every occurrence of bare `<s>` not
followed by a space survives sanitization, and the text handed to the SQL
executor still contains the sentinel. -/
theorem c10_bare_sentinel_survives (u v raw : List Char)
    (h : raw = u ++ bareSentinel ++ v) (hv : v.head? ≠ some ' ') :
    containsSub bareSentinel (sanitize raw) = true ∧
    (∀ (q k cy : List Char) (pg : PgOracle) (neo : NeoOracle), q ≠ [] → k ≠ [] →
      ∃ t, (process ⟨q, k⟩ ⟨true, .ok raw, .ok cy, pg, neo⟩).sqlSent = some t ∧
        containsSub bareSentinel t = true) := by
  have h1 : containsSub bareSentinel (removeSentinel raw) = true := by
    apply bareSentinel_survives_aux raw.length raw u v le_rfl _ hv
    simpa [bareSentinel] using h
  have h2 : containsSub bareSentinel (sanitize raw) = true :=
    containsSub_removeBackticks _ _ (by decide) h1
  refine ⟨h2, ?_⟩
  intro q k cy pg neo hq hk
  refine ⟨sanitize raw, ?_, h2⟩
  simp [process, hq, hk]

/-- Witness for C10 at a concrete text ending in a bare `<s>`. -/
theorem c10_bare_sentinel_survives_witness :
    containsSub bareSentinel (sanitize "SELECT 1 <s>".toList) = true ∧
    (∃ t, (process ⟨"q".toList, "k".toList⟩
        ⟨true, .ok "SELECT 1 <s>".toList, .ok "RETURN 1".toList, pgOk, neoOk⟩).sqlSent
          = some t ∧ containsSub bareSentinel t = true) :=
  ⟨(c10_bare_sentinel_survives "SELECT 1 ".toList [] "SELECT 1 <s>".toList
      (by decide) (by decide)).1,
    (c10_bare_sentinel_survives "SELECT 1 ".toList [] "SELECT 1 <s>".toList
      (by decide) (by decide)).2 "q".toList "k".toList "RETURN 1".toList pgOk neoOk
      (by decide) (by decide)⟩

/-! ## Claim C1 -/

/-- A valid request whose SQL generation call raises while everything
else would succeed. -/
def oraclesSqlGenFail : Oracles :=
  ⟨true, .error "model endpoint unreachable", .ok "MATCH (n) RETURN n".toList, pgOk, neoOk⟩

/-- C1 counterexample: with a valid configuration and a failing SQL
generation call, the Cypher generation is never invoked, neither dialect
is executed, and the failure is reported by the top-level catch-all — the
sibling pipeline is cancelled, contradicting the claim. -/
theorem c1_counterexample :
    (process reqOk oraclesSqlGenFail).sqlGenCalled = true ∧
    (process reqOk oraclesSqlGenFail).cypherGenCalled = false ∧
    (process reqOk oraclesSqlGenFail).sqlOutcome = none ∧
    (process reqOk oraclesSqlGenFail).cypherOutcome = none ∧
    (process reqOk oraclesSqlGenFail).topError
        = some "An error occurred: model endpoint unreachable" := by decide

/-- C1 (amended): both generation calls sit inside the single outer `try`,
so a failure of either one is caught only by the top-level catch-all,
reported as one global error rather than per-dialect, and aborts the rest
of the request: on SQL generation failure the Cypher generation never
runs and nothing is executed; on Cypher generation failure the generated
SQL is never executed either. -/
theorem c1_generation_failure_aborts_request (q k raw cy : List Char)
    (e : String) (pg : PgOracle) (neo : NeoOracle) (hq : q ≠ []) (hk : k ≠ []) :
    ((process ⟨q, k⟩ ⟨true, .error e, .ok cy, pg, neo⟩).topError
        = some ("An error occurred: " ++ e) ∧
      (process ⟨q, k⟩ ⟨true, .error e, .ok cy, pg, neo⟩).cypherGenCalled = false ∧
      (process ⟨q, k⟩ ⟨true, .error e, .ok cy, pg, neo⟩).sqlOutcome = none ∧
      (process ⟨q, k⟩ ⟨true, .error e, .ok cy, pg, neo⟩).cypherOutcome = none) ∧
    ((process ⟨q, k⟩ ⟨true, .ok raw, .error e, pg, neo⟩).topError
        = some ("An error occurred: " ++ e) ∧
      (process ⟨q, k⟩ ⟨true, .ok raw, .error e, pg, neo⟩).sqlGenCalled = true ∧
      (process ⟨q, k⟩ ⟨true, .ok raw, .error e, pg, neo⟩).sqlSent = none ∧
      (process ⟨q, k⟩ ⟨true, .ok raw, .error e, pg, neo⟩).sqlOutcome = none ∧
      (process ⟨q, k⟩ ⟨true, .ok raw, .error e, pg, neo⟩).cypherOutcome = none) := by
  simp [process, hq, hk]

/-- Witness for C1 (amended) at a concrete request. -/
theorem c1_generation_failure_aborts_request_witness :
    ((process ⟨"q".toList, "k".toList⟩
        ⟨true, .error "boom", .ok "c".toList, pgOk, neoOk⟩).topError
        = some ("An error occurred: " ++ "boom") ∧
      (process ⟨"q".toList, "k".toList⟩
        ⟨true, .error "boom", .ok "c".toList, pgOk, neoOk⟩).cypherGenCalled = false ∧
      (process ⟨"q".toList, "k".toList⟩
        ⟨true, .error "boom", .ok "c".toList, pgOk, neoOk⟩).sqlOutcome = none ∧
      (process ⟨"q".toList, "k".toList⟩
        ⟨true, .error "boom", .ok "c".toList, pgOk, neoOk⟩).cypherOutcome = none) ∧
    ((process ⟨"q".toList, "k".toList⟩
        ⟨true, .ok "s".toList, .error "boom", pgOk, neoOk⟩).topError
        = some ("An error occurred: " ++ "boom") ∧
      (process ⟨"q".toList, "k".toList⟩
        ⟨true, .ok "s".toList, .error "boom", pgOk, neoOk⟩).sqlGenCalled = true ∧
      (process ⟨"q".toList, "k".toList⟩
        ⟨true, .ok "s".toList, .error "boom", pgOk, neoOk⟩).sqlSent = none ∧
      (process ⟨"q".toList, "k".toList⟩
        ⟨true, .ok "s".toList, .error "boom", pgOk, neoOk⟩).sqlOutcome = none ∧
      (process ⟨"q".toList, "k".toList⟩
        ⟨true, .ok "s".toList, .error "boom", pgOk, neoOk⟩).cypherOutcome = none) :=
  c1_generation_failure_aborts_request "q".toList "k".toList "s".toList "c".toList
    "boom" pgOk neoOk (by decide) (by decide)

/-! ## Claim C2 -/

/-- C2 counterexample: when `cursor.execute` raises, the opened relational
connection and cursor are never released; when `session.run` raises, the
opened graph driver is never released. -/
theorem c2_counterexample :
    (runPg pgExecFail).events.count PgEvent.connOpen = 1 ∧
    (runPg pgExecFail).events.count PgEvent.connClose = 0 ∧
    (runPg pgExecFail).events.count PgEvent.cursorClose = 0 ∧
    (runNeo neoRunFail).events.count NeoEvent.driverOpen = 1 ∧
    (runNeo neoRunFail).events.count NeoEvent.driverClose = 0 := by decide

/-- Did this driver step succeed (no exception)? -/
def stepOk {α : Type} (e : Except String α) : Bool :=
  match e with
  | .ok _ => true
  | .error _ => false

/-- C2 (amended): resources are released exactly once only on the fully
successful control path.  The relational connection and cursor are not
released when `execute` or `fetchall` raises after the connect succeeded;
the graph driver is not released when the session opening or the query run
raises after the driver was created; only the graph session is released on
every path on which it was opened, because the `with` block guarantees
that. -/
theorem c2_resource_release_characterization (pg : PgOracle) (neo : NeoOracle) :
    (runPg pg).events =
      (if stepOk pg.connectResult then
        if stepOk pg.executeResult && stepOk pg.fetchResult then
          [PgEvent.connOpen, PgEvent.cursorOpen, PgEvent.cursorClose, PgEvent.connClose]
        else [PgEvent.connOpen, PgEvent.cursorOpen]
      else []) ∧
    (runNeo neo).events =
      (if stepOk neo.driverResult then
        if stepOk neo.sessionResult then
          if stepOk neo.runResult then
            [NeoEvent.driverOpen, NeoEvent.sessionOpen, NeoEvent.sessionClose,
              NeoEvent.driverClose]
          else [NeoEvent.driverOpen, NeoEvent.sessionOpen, NeoEvent.sessionClose]
        else [NeoEvent.driverOpen]
      else []) ∧
    (runNeo neo).events.count NeoEvent.sessionClose
        = (runNeo neo).events.count NeoEvent.sessionOpen := by
  refine ⟨?_, ?_, ?_⟩
  · rcases pg with ⟨c, x, f⟩
    cases c <;> cases x <;> cases f <;> simp [runPg, stepOk]
  · rcases neo with ⟨d, s, r⟩
    cases d <;> cases s <;> cases r <;> simp [runNeo, stepOk]
  · rcases neo with ⟨d, s, r⟩
    cases d <;> cases s <;> cases r <;> rfl

/-! ## Claim C6 -/

/-- C6: for a request that reaches the execution stage, each dialect's
outcome is a function of its own executor oracle alone — the SQL outcome
is `runPg` of the PostgreSQL oracle whatever the Neo4j oracle does, and
symmetrically — and both outcomes are always present, so a failure of one
executor neither alters nor blocks the other's outcome. -/
theorem c6_execution_independence (q k raw cy : List Char)
    (pg pg2 : PgOracle) (neo neo2 : NeoOracle) (hq : q ≠ []) (hk : k ≠ []) :
    (process ⟨q, k⟩ ⟨true, .ok raw, .ok cy, pg, neo⟩).sqlOutcome
        = some (runPg pg).result ∧
    (process ⟨q, k⟩ ⟨true, .ok raw, .ok cy, pg, neo⟩).cypherOutcome
        = some (runNeo neo).result ∧
    (process ⟨q, k⟩ ⟨true, .ok raw, .ok cy, pg, neo⟩).cypherOutcome
        = (process ⟨q, k⟩ ⟨true, .ok raw, .ok cy, pg2, neo⟩).cypherOutcome ∧
    (process ⟨q, k⟩ ⟨true, .ok raw, .ok cy, pg, neo⟩).sqlOutcome
        = (process ⟨q, k⟩ ⟨true, .ok raw, .ok cy, pg, neo2⟩).sqlOutcome := by
  simp [process, hq, hk]

/-- Witness for C6: the relational datastore is unreachable while the
graph succeeds, and swapping either oracle leaves the sibling outcome
unchanged. -/
theorem c6_execution_independence_witness :
    (process ⟨"q".toList, "k".toList⟩
        ⟨true, .ok "s".toList, .ok "c".toList, pgConnFail, neoOk⟩).sqlOutcome
        = some (runPg pgConnFail).result ∧
    (process ⟨"q".toList, "k".toList⟩
        ⟨true, .ok "s".toList, .ok "c".toList, pgConnFail, neoOk⟩).cypherOutcome
        = some (runNeo neoOk).result ∧
    (process ⟨"q".toList, "k".toList⟩
        ⟨true, .ok "s".toList, .ok "c".toList, pgConnFail, neoOk⟩).cypherOutcome
        = (process ⟨"q".toList, "k".toList⟩
            ⟨true, .ok "s".toList, .ok "c".toList, pgOk, neoOk⟩).cypherOutcome ∧
    (process ⟨"q".toList, "k".toList⟩
        ⟨true, .ok "s".toList, .ok "c".toList, pgConnFail, neoOk⟩).sqlOutcome
        = (process ⟨"q".toList, "k".toList⟩
            ⟨true, .ok "s".toList, .ok "c".toList, pgConnFail, neoRunFail⟩).sqlOutcome :=
  c6_execution_independence "q".toList "k".toList "s".toList "c".toList
    pgConnFail pgOk neoOk neoRunFail (by decide) (by decide)

/-! ## Claim C7 -/

/-- C7: a graph driver-level error makes the Cypher result absent
(`none`, a state distinct from the empty record list) with the error text
surfaced to the user and the warning banner shown; a successful run with
zero records is rendered as an (empty) JSON result, not reported as a
failure. -/
theorem c7_graph_failure_absent_vs_empty (q k raw cy : List Char)
    (pg : PgOracle) (neo : NeoOracle) (hq : q ≠ []) (hk : k ≠ []) :
    (∀ e, neo.firstErr = some e →
      (process ⟨q, k⟩ ⟨true, .ok raw, .ok cy, pg, neo⟩).cypherOutcome = some none ∧
      (process ⟨q, k⟩ ⟨true, .ok raw, .ok cy, pg, neo⟩).cypherOutcome
          ≠ some (some []) ∧
      (process ⟨q, k⟩ ⟨true, .ok raw, .ok cy, pg, neo⟩).cypherErrors
          = ["Error executing Cypher query: " ++ e] ∧
      (process ⟨q, k⟩ ⟨true, .ok raw, .ok cy, pg, neo⟩).cypherShown
          = some CypherShown.warn) ∧
    (neo.runResult = .ok [] → neo.firstErr = none →
      (process ⟨q, k⟩ ⟨true, .ok raw, .ok cy, pg, neo⟩).cypherOutcome
          = some (some []) ∧
      (process ⟨q, k⟩ ⟨true, .ok raw, .ok cy, pg, neo⟩).cypherErrors = [] ∧
      (process ⟨q, k⟩ ⟨true, .ok raw, .ok cy, pg, neo⟩).cypherShown
          = some (CypherShown.json [])) := by
  rcases neo with ⟨d, s, r⟩
  constructor
  · intro e he
    cases d <;> cases s <;> cases r <;>
      simp_all [process, runNeo, NeoOracle.firstErr, hq, hk]
  · intro h1 h2
    cases d <;> cases s <;> cases r <;>
      simp_all [process, runNeo, NeoOracle.firstErr, hq, hk]

/-- Witness for C7: a failing `session.run` versus a successful run with
zero records. -/
theorem c7_graph_failure_absent_vs_empty_witness :
    ((process ⟨"q".toList, "k".toList⟩
        ⟨true, .ok "s".toList, .ok "c".toList, pgOk, neoRunFail⟩).cypherOutcome
        = some none ∧
      (process ⟨"q".toList, "k".toList⟩
        ⟨true, .ok "s".toList, .ok "c".toList, pgOk, neoRunFail⟩).cypherOutcome
        ≠ some (some []) ∧
      (process ⟨"q".toList, "k".toList⟩
        ⟨true, .ok "s".toList, .ok "c".toList, pgOk, neoRunFail⟩).cypherErrors
        = ["Error executing Cypher query: " ++ "ServiceUnavailable"] ∧
      (process ⟨"q".toList, "k".toList⟩
        ⟨true, .ok "s".toList, .ok "c".toList, pgOk, neoRunFail⟩).cypherShown
        = some CypherShown.warn) ∧
    ((process ⟨"q".toList, "k".toList⟩
        ⟨true, .ok "s".toList, .ok "c".toList, pgOk, neoEmptyOk⟩).cypherOutcome
        = some (some []) ∧
      (process ⟨"q".toList, "k".toList⟩
        ⟨true, .ok "s".toList, .ok "c".toList, pgOk, neoEmptyOk⟩).cypherErrors = [] ∧
      (process ⟨"q".toList, "k".toList⟩
        ⟨true, .ok "s".toList, .ok "c".toList, pgOk, neoEmptyOk⟩).cypherShown
        = some (CypherShown.json [])) :=
  ⟨(c7_graph_failure_absent_vs_empty "q".toList "k".toList "s".toList "c".toList
      pgOk neoRunFail (by decide) (by decide)).1 "ServiceUnavailable" (by decide),
    (c7_graph_failure_absent_vs_empty "q".toList "k".toList "s".toList "c".toList
      pgOk neoEmptyOk (by decide) (by decide)).2 rfl rfl⟩

/-! ## Claim C8 -/

/-- C8: when any relational driver step raises, the executor produces the
Failure outcome carrying the error's textual description, and nothing
escapes the executor boundary: the handler still records a per-dialect
SQL outcome and no top-level error. -/
theorem c8_sql_error_to_failure_outcome (pg : PgOracle) (e : String)
    (h : pg.firstErr = some e) :
    (runPg pg).result = SqlOutcome.err ("Error executing SQL query: " ++ e) ∧
    (∀ (q k raw cy : List Char) (neo : NeoOracle), q ≠ [] → k ≠ [] →
      (process ⟨q, k⟩ ⟨true, .ok raw, .ok cy, pg, neo⟩).sqlOutcome
          = some (SqlOutcome.err ("Error executing SQL query: " ++ e)) ∧
      (process ⟨q, k⟩ ⟨true, .ok raw, .ok cy, pg, neo⟩).topError = none) := by
  have hr : (runPg pg).result = SqlOutcome.err ("Error executing SQL query: " ++ e) := by
    rcases pg with ⟨c, x, f⟩
    simp only [PgOracle.firstErr] at h
    cases c <;> cases x <;> cases f <;> simp_all [runPg]
  refine ⟨hr, ?_⟩
  intro q k raw cy neo hq hk
  constructor
  · simp [process, hq, hk, hr]
  · simp [process, hq, hk]

/-- Witness for C8: connect raises with a connection-refused message. -/
theorem c8_sql_error_to_failure_outcome_witness :
    (runPg pgConnFail).result
        = SqlOutcome.err ("Error executing SQL query: " ++ "connection refused") ∧
    (process ⟨"q".toList, "k".toList⟩
        ⟨true, .ok "s".toList, .ok "c".toList, pgConnFail, neoOk⟩).sqlOutcome
        = some (SqlOutcome.err ("Error executing SQL query: " ++ "connection refused")) ∧
    (process ⟨"q".toList, "k".toList⟩
        ⟨true, .ok "s".toList, .ok "c".toList, pgConnFail, neoOk⟩).topError = none :=
  ⟨(c8_sql_error_to_failure_outcome pgConnFail "connection refused" (by decide)).1,
    ((c8_sql_error_to_failure_outcome pgConnFail "connection refused" (by decide)).2
      "q".toList "k".toList "s".toList "c".toList neoOk (by decide) (by decide)).1,
    ((c8_sql_error_to_failure_outcome pgConnFail "connection refused" (by decide)).2
      "q".toList "k".toList "s".toList "c".toList neoOk (by decide) (by decide)).2⟩

/-! ## Claim C9 -/

/-- C9: a submission with the question missing — and likewise with the
model credential missing — is answered by a configuration error message
and issues no external call at all: neither model generation is invoked,
no text reaches an executor, no datastore resource event happens, and no
execution outcome exists. -/
theorem c9_config_error_no_calls (req : Request) (o : Oracles)
    (h : req.question = [] ∨ req.groqApiKey = []) :
    ((process req o).configError = some "Please enter a question." ∨
      (process req o).configError = some "GROQ API Key not set. Please add it above.") ∧
    (process req o).sqlGenCalled = false ∧
    (process req o).cypherGenCalled = false ∧
    (process req o).sqlSent = none ∧
    (process req o).cypherSent = none ∧
    (process req o).pgEvents = [] ∧
    (process req o).neoEvents = [] ∧
    (process req o).sqlOutcome = none ∧
    (process req o).cypherOutcome = none := by
  by_cases hq : req.question = []
  · simp [process, hq]
  · rcases h with h | h
    · exact absurd h hq
    · simp [process, hq, h]

/-- Witness for C9: an empty question with every external call ready to
succeed. -/
theorem c9_config_error_no_calls_witness :
    ((process ⟨[], "k".toList⟩ ⟨true, .ok "s".toList, .ok "c".toList, pgOk, neoOk⟩).configError
        = some "Please enter a question." ∨
      (process ⟨[], "k".toList⟩ ⟨true, .ok "s".toList, .ok "c".toList, pgOk, neoOk⟩).configError
        = some "GROQ API Key not set. Please add it above.") ∧
    (process ⟨[], "k".toList⟩ ⟨true, .ok "s".toList, .ok "c".toList, pgOk, neoOk⟩).sqlGenCalled
        = false ∧
    (process ⟨[], "k".toList⟩ ⟨true, .ok "s".toList, .ok "c".toList, pgOk, neoOk⟩).cypherGenCalled
        = false ∧
    (process ⟨[], "k".toList⟩ ⟨true, .ok "s".toList, .ok "c".toList, pgOk, neoOk⟩).sqlSent
        = none ∧
    (process ⟨[], "k".toList⟩ ⟨true, .ok "s".toList, .ok "c".toList, pgOk, neoOk⟩).cypherSent
        = none ∧
    (process ⟨[], "k".toList⟩ ⟨true, .ok "s".toList, .ok "c".toList, pgOk, neoOk⟩).pgEvents
        = [] ∧
    (process ⟨[], "k".toList⟩ ⟨true, .ok "s".toList, .ok "c".toList, pgOk, neoOk⟩).neoEvents
        = [] ∧
    (process ⟨[], "k".toList⟩ ⟨true, .ok "s".toList, .ok "c".toList, pgOk, neoOk⟩).sqlOutcome
        = none ∧
    (process ⟨[], "k".toList⟩ ⟨true, .ok "s".toList, .ok "c".toList, pgOk, neoOk⟩).cypherOutcome
        = none :=
  c9_config_error_no_calls ⟨[], "k".toList⟩
    ⟨true, .ok "s".toList, .ok "c".toList, pgOk, neoOk⟩ (Or.inl rfl)
